import Mathlib

deriving instance DecidableEq for Except

/-!
Shallow embedding of `src/odoo/service/db.py` (Odoo 10 database lifecycle
service): credential-gated dispatch, database provisioning (create, duplicate,
drop, rename), backup (dump) and restore, and the listing helpers.

External collaborators (the PostgreSQL server, the filesystem, the module
registry, external pg_dump/psql/pg_restore processes) are modelled by an
explicit `World` state plus oracle parameters describing the outcome of each
fallible external action.  Observable side effects are recorded in an event
trace carried by the `World`.
-/

namespace OdooDb

/-- Exceptions raised by `db.py`, modelled structurally.  Python builds the
message text with string interpolation; here each constructor carries the
interpolated data instead. -/
inductive Err where
  /-- odoo.exceptions.AccessDenied -/
  | accessDenied
  /-- the `DatabaseExists` warning raised by `_create_empty_database` -/
  | databaseExists (name : String)
  /-- the generic Exception raised by `restore_db` when the target database
      already answers a connection attempt -/
  | alreadyExists
  /-- Exception raised by `exp_drop` when the DROP DATABASE statement fails;
      carries the database name and the engine error text that Python appends
      to the message -/
  | dropFailed (name : String) (engineMsg : String)
  /-- Exception raised by `exp_rename` when ALTER DATABASE RENAME fails;
      carries both names and the engine error text appended to the message -/
  | renameFailed (oldName newName : String) (engineMsg : String)
  /-- Exception raised by `restore_db` when the external restore tool exits
      with a non-zero status -/
  | restoreFailed
  /-- KeyError raised by `dispatch` for an unrecognized method name -/
  | methodNotFound (method : String)
  /-- IndexError from `params[0]` on an empty argument list -/
  | indexError
  deriving DecidableEq, Repr

/-- Steps of `_initialize_db`, in source order.  `translationSetup` and
`countrySetup` run only when a language or country code was supplied. -/
inductive InitStep where
  | baselineSchema
  | registryBootstrap
  | translationSetup
  | countrySetup
  | adminFinalize
  deriving DecidableEq, Repr

/-- Observable side effects of the service, recorded in a trace. -/
inductive Event where
  | registryDelete (name : String)
  | closeDb (name : String)
  | terminateSessions (name : String)
  | createDatabase (name : String)
  | dropDatabase (name : String)
  | alterRename (oldName newName : String)
  | removeFilestore (name : String)
  | moveFilestore (oldName newName : String)
  | copyFilestore (oldName newName : String)
  | initStepDone (name : String) (step : InitStep)
  | extract (member : String)
  | runRestoreTool (tool : String)
  | regenerateDbuuid (name : String)
  | restoreFilestoreMove (name : String)
  deriving DecidableEq, Repr

/-- State of the external world as far as `db.py` observes it:
the PostgreSQL catalog (`pg_database`), the set of database names whose
filestore directory exists, the set of names a connection attempt succeeds
for (`exp_db_exist` is connection-based, not catalog-based), and the event
trace. -/
structure World where
  catalog : List String
  filestores : List String
  connectable : List String
  trace : List Event
  deriving DecidableEq, Repr

/-- Append one event to the trace. -/
def World.record (w : World) (e : Event) : World :=
  { w with trace := w.trace ++ [e] }

/-- The slice of `odoo.tools.config` that `db.py` reads. -/
structure ToolsConfig where
  list_db : Bool
  dbfilter : String
  db_name : String
  db_template : String
  unaccent : Bool
  deriving DecidableEq, Repr

/-- check_super, instrumented: the second component counts how many times the
configured password verification (`verify_admin_password`) was consulted,
reflecting the short-circuit in `if passwd and ...verify_admin_password(passwd)`:
a falsy (empty) credential denies without any verification call. -/
def check_super (verify : String → Bool) (passwd : String) : Except Err Unit × Nat :=
  if passwd = "" then (Except.error Err.accessDenied, 0)
  else if verify passwd then (Except.ok (), 1)
  else (Except.error Err.accessDenied, 1)

/-- Names of the `exp_`-prefixed functions present in the module globals. -/
def expGlobals : List String :=
  ["exp_create_database", "exp_duplicate_database", "exp_drop", "exp_dump",
   "exp_restore", "exp_rename", "exp_change_admin_password",
   "exp_migrate_databases", "exp_db_exist", "exp_list", "exp_list_lang",
   "exp_list_countries", "exp_server_version"]

/-- The allow-list of methods dispatched without a credential check. -/
def publicMethods : List String :=
  ["db_exist", "list", "list_lang", "server_version"]

/-- The recognized methods that require the master password: every method
whose `exp_` function exists and that is not on the allow-list. -/
def credentialedMethods : List String :=
  ["create_database", "duplicate_database", "drop", "dump", "restore",
   "rename", "change_admin_password", "migrate_databases", "list_countries"]

/-- Result of a successful dispatch: the router delegates to the named
`exp_` function with the given (credential-stripped, where applicable)
argument list.  The dispatcher is a pure router, so delegation is the only
observable outcome. -/
inductive DispatchResult where
  | delegate (expName : String) (args : List String)
  deriving DecidableEq, Repr

/-- dispatch: allow-listed methods delegate with the full argument list and no
credential check; other recognized methods pop `params[0]` as the credential
and run `check_super` before delegating; unknown names raise KeyError.
Popping `params[0]` from an empty list is the Python IndexError. -/
def dispatch (verify : String → Bool) (method : String) (params : List String) :
    Except Err DispatchResult :=
  let exp_method_name := "exp_" ++ method
  if method ∈ publicMethods then
    Except.ok (DispatchResult.delegate exp_method_name params)
  else if exp_method_name ∈ expGlobals then
    match params with
    | [] => Except.error Err.indexError
    | passwd :: rest =>
      match (check_super verify passwd).1 with
      | Except.error e => Except.error e
      | Except.ok _ => Except.ok (DispatchResult.delegate exp_method_name rest)
  else Except.error (Err.methodNotFound method)

/-- Insertion of a string into a list sorted ascending (used for `res.sort()`
and `sorted(...)` in `list_dbs`). -/
def insertStr (a : String) : List String → List String
  | [] => [a]
  | b :: bs => if a ≤ b then a :: b :: bs else b :: insertStr a bs

/-- Ascending string sort (`res.sort()` / `sorted(...)`). -/
def sortStr : List String → List String
  | [] => []
  | a :: as => insertStr a (sortStr as)

/-- list_dbs: without `force`, denies when the `list_db` config flag is off.
When `dbfilter` is unset and `db_name` is set, returns the comma-separated
`db_name` entries, stripped and sorted, without querying the server.
Otherwise queries `pg_database` for the databases visible to the configured
server user, excluding the template databases; the whole query is wrapped in
a try/except that turns any failure into an empty result (`queryFails`
oracle).  The catalog-branch result is sorted before being returned. -/
def list_dbs (config : ToolsConfig) (w : World) (force : Bool) (queryFails : Bool) :
    Except Err (List String) :=
  if ¬ config.list_db ∧ ¬ force then Except.error Err.accessDenied
  else if config.dbfilter = "" ∧ config.db_name ≠ "" then
    Except.ok (sortStr ((config.db_name.splitOn ",").map String.trim))
  else
    let templates := ["postgres", config.db_template]
    let res := if queryFails then []
               else w.catalog.filter (fun d => ¬ d ∈ templates)
    Except.ok (sortStr res)

/-- exp_list: guards on the `list_db` config flag itself before delegating to
`list_dbs()` (which, called without force, checks the same flag again). -/
def exp_list (config : ToolsConfig) (w : World) (queryFails : Bool) :
    Except Err (List String) :=
  if ¬ config.list_db then Except.error Err.accessDenied
  else list_dbs config w false queryFails

/-- exp_db_exist.  Modelled from the spec: `odoo.sql_db.db_connect` (not under
src/) — existence is "a connection attempt to `db_name` succeeds", which the
`connectable` component of the `World` records; it can disagree with the
`pg_database` catalog (spec section 9, ambiguous existence check). -/
def exp_db_exist (w : World) (db_name : String) : Bool :=
  db_name ∈ w.connectable

/-- _create_empty_database: queries `pg_database` for `name`; if present,
raises `DatabaseExists` before any side effect; otherwise executes
CREATE DATABASE (template copy) under autocommit. -/
def _create_empty_database (w : World) (name : String) : World × Except Err Unit :=
  if name ∈ w.catalog then (w, Except.error (Err.databaseExists name))
  else ({ w with catalog := w.catalog ++ [name],
                 trace := w.trace ++ [Event.createDatabase name] },
        Except.ok ())

/-- The initialization steps `_initialize_db` attempts, in source order:
`odoo.modules.db.initialize` (baseline schema), `Registry.new` with
`update_module=True` (registry bootstrap), `update_translations` when a
language was given, the `res.country` main-company setup when a country code
was given, and finally the admin account password/login/lang write. -/
def initStepsFor (lang : Option String) (country_code : Option String) : List InitStep :=
  [InitStep.baselineSchema, InitStep.registryBootstrap]
    ++ (if lang.isSome then [InitStep.translationSetup] else [])
    ++ (if country_code.isSome then [InitStep.countrySetup] else [])
    ++ [InitStep.adminFinalize]

/-- Runs initialization steps in order; `failAt` is the oracle saying which
steps raise.  The first raising step aborts the rest, leaving the effects of
the completed steps in place (Python effects before an exception persist). -/
def runInitSteps (name : String) (failAt : InitStep → Bool) :
    World → List InitStep → World × Except InitStep Unit
  | w, [] => (w, Except.ok ())
  | w, s :: rest =>
    if failAt s then (w, Except.error s)
    else runInitSteps name failAt (w.record (Event.initStepDone name s)) rest

/-- _initialize_db: the whole body sits inside `try: ... except Exception:`
whose handler only logs, so every failure — at any step, not only the final
admin step — is swallowed and the function returns normally. -/
def _initialize_db (w : World) (db_name : String) (lang country_code : Option String)
    (failAt : InitStep → Bool) : World :=
  (runInitSteps db_name failAt w (initStepsFor lang country_code)).1

/-- exp_create_database: creates the empty template copy (which raises
`DatabaseExists` first if the name is taken), then runs `_initialize_db`
(which never raises), then returns True. -/
def exp_create_database (w : World) (db_name : String) (lang country_code : Option String)
    (failAt : InitStep → Bool) : World × Except Err Bool :=
  match _create_empty_database w db_name with
  | (w1, Except.error e) => (w1, Except.error e)
  | (w1, Except.ok _) =>
    (_initialize_db w1 db_name lang country_code failAt, Except.ok true)

/-- exp_drop: returns False without any action when the name is not in the
visible database list (`list_dbs(True)`).  Otherwise deletes the registry
entry, closes cached connections, terminates other sessions, then attempts
DROP DATABASE; a failure there (the `dropError` oracle carries the engine
message) raises with the name and engine text attached and nothing further
happens — the filestore is removed only after a successful DROP. -/
def exp_drop (config : ToolsConfig) (w : World) (db_name : String)
    (dropError : Option String) (queryFails : Bool) : World × Except Err Bool :=
  match list_dbs config w true queryFails with
  | Except.error e => (w, Except.error e)
  | Except.ok dbs =>
    if ¬ db_name ∈ dbs then (w, Except.ok false)
    else
      let w1 := ((w.record (Event.registryDelete db_name)).record
                  (Event.closeDb db_name)).record (Event.terminateSessions db_name)
      match dropError with
      | some e => (w1, Except.error (Err.dropFailed db_name e))
      | none =>
        let w2 := { w1 with catalog := w1.catalog.erase db_name,
                            trace := w1.trace ++ [Event.dropDatabase db_name] }
        if db_name ∈ w2.filestores then
          ({ w2 with filestores := w2.filestores.erase db_name,
                     trace := w2.trace ++ [Event.removeFilestore db_name] },
           Except.ok true)
        else (w2, Except.ok true)

/-- exp_rename: deletes the registry entry, closes cached connections,
terminates sessions, then ALTER DATABASE RENAME under autocommit; a failure
there (the `renameError` oracle) raises with both names and the engine text
attached and the filestore is untouched.  On success the filestore directory
is moved to the new path only when the old one exists and the destination
does not already exist. -/
def exp_rename (w : World) (old_name new_name : String) (renameError : Option String) :
    World × Except Err Bool :=
  let w1 := ((w.record (Event.registryDelete old_name)).record
              (Event.closeDb old_name)).record (Event.terminateSessions old_name)
  match renameError with
  | some e => (w1, Except.error (Err.renameFailed old_name new_name e))
  | none =>
    let w2 := { w1 with catalog := w1.catalog.map (fun d => if d = old_name then new_name else d),
                        trace := w1.trace ++ [Event.alterRename old_name new_name] }
    if old_name ∈ w2.filestores ∧ ¬ new_name ∈ w2.filestores then
      ({ w2 with filestores := (w2.filestores.erase old_name) ++ [new_name],
                 trace := w2.trace ++ [Event.moveFilestore old_name new_name] },
       Except.ok true)
    else (w2, Except.ok true)

/-- The sort key `dump_db` passes to the zip packer:
`fnct_sort=lambda file_name: file_name != 'dump.sql'` (db.py line 200). -/
def fnct_sort (file_name : String) : Bool :=
  file_name ≠ "dump.sql"

/-- Numeric view of the sort key: Python orders False (0) before True (1). -/
def sortKey (file_name : String) : Nat :=
  if fnct_sort file_name then 1 else 0

/-- Stable insertion for the key sort: an element moves in front only of
elements with a strictly greater key, which is how a stable sort with a
two-valued key orders the list. -/
def insertByKey (a : String) : List String → List String
  | [] => [a]
  | b :: bs => if sortKey a < sortKey b then a :: b :: bs else b :: insertByKey a bs

/-- Stable sort of a file-name list by `fnct_sort` (ascending key order). -/
def sortByKey : List String → List String
  | [] => []
  | a :: as => insertByKey a (sortByKey as)

/-- Modelled from the spec: `odoo.tools.osutil.zip_dir` is not under src/.
The packer walks the staging directory top-down, sorts each directory's file
names ascending by the supplied sort key (Python `sorted(filenames,
key=fnct_sort)`, False ordering before True), and writes members in that
order, so the top directory's files precede the `filestore/` subtree.
`topFiles` is the OS enumeration of the staging directory's own files and
`subtreeFiles` the (already prefixed) members of the walked subtree. -/
def zip_dir_listing (topFiles : List String) (subtreeFiles : List String) : List String :=
  sortByKey topFiles ++ subtreeFiles

/-- Physical member listing of the archive `dump_db` produces with the zip
format: the staging directory holds exactly `dump.sql` and `manifest.json`
at top level (in OS-dependent order `topOrder`), plus the copied filestore
subtree when present. -/
def dump_db_zip_listing (topOrder : List String) (filestoreFiles : List String) :
    List String :=
  zip_dir_listing topOrder (filestoreFiles.map (fun f => "filestore/" ++ f))

/-- Python str.startswith, via character lists so that concrete instances
reduce in the kernel. -/
def strStartsWith (s p : String) : Bool :=
  p.data.isPrefixOf s.data

/-- The members `restore_db` passes to `extractall`: `dump.sql` plus every
archive member whose name starts with `filestore/` (db.py lines 242 and 243,
comment in source: only extract known members). -/
def restore_extract_members (namelist : List String) : List String :=
  "dump.sql" :: namelist.filter (fun m => strStartsWith m "filestore/")

/-- A restore input: either a zip archive with the given member names
(current format) or a legacy raw pg_dump custom-format file. -/
structure DumpFile where
  isZip : Bool
  namelist : List String
  deriving DecidableEq, Repr

/-- restore_db: raises when a connection attempt to the target succeeds;
otherwise creates the empty target database first, then extracts the safe
member set (zip case) and runs the external restore tool (`psql` for zip,
`pg_restore` for legacy).  A truthy return from `exec_pg_command` — a
non-zero exit (`restoreFails` oracle) — raises and aborts with the newly
created empty database left in place.  On success: new dbuuid when `copy`,
the extracted filestore moved into place, and the best-effort unaccent
extension attempt whose failure is swallowed. -/
def restore_db (w : World) (db : String) (dump : DumpFile) (copy : Bool)
    (restoreFails : Bool) : World × Except Err Unit :=
  if exp_db_exist w db then (w, Except.error Err.alreadyExists)
  else
    match _create_empty_database w db with
    | (w1, Except.error e) => (w1, Except.error e)
    | (w1, Except.ok _) =>
      let members := if dump.isZip then restore_extract_members dump.namelist else []
      let hasFilestore := dump.isZip ∧ dump.namelist.any (fun m => strStartsWith m "filestore/")
      let w2 := { w1 with trace := w1.trace ++ members.map Event.extract }
      let w3 := w2.record (Event.runRestoreTool (if dump.isZip then "psql" else "pg_restore"))
      if restoreFails then (w3, Except.error Err.restoreFailed)
      else
        let w4 := if copy then w3.record (Event.regenerateDbuuid db) else w3
        let w5 := if hasFilestore then
                    { w4 with filestores := w4.filestores ++ [db],
                              trace := w4.trace ++ [Event.restoreFilestoreMove db] }
                  else w4
        (w5, Except.ok ())

/-! Helper lemmas -/

/-- Initialization only appends trace events: catalog and filestores are
untouched by every step, whatever the failure oracle says. -/
theorem runInitSteps_preserves (name : String) (failAt : InitStep → Bool)
    (steps : List InitStep) (w : World) :
    (runInitSteps name failAt w steps).1.catalog = w.catalog ∧
    (runInitSteps name failAt w steps).1.filestores = w.filestores := by
  induction steps generalizing w with
  | nil => exact ⟨rfl, rfl⟩
  | cons s rest ih =>
    simp only [runInitSteps]
    by_cases h : failAt s
    · simp [h]
    · simpa [h, World.record] using ih (w.record (Event.initStepDone name s))

/-! Claim theorems -/

/-- C10: check_super denies every empty (falsy) credential without consulting
the configured password verification — the verification-call counter stays at
zero for every verifier, even one accepting everything — so an empty master
password can never authorize a credentialed operation; consequently dispatch
of any credentialed method with an empty credential raises AccessDenied. -/
theorem c10_empty_credential_denied :
    (∀ verify : String → Bool,
      check_super verify "" = (Except.error Err.accessDenied, 0)) ∧
    (∀ (verify : String → Bool) (m : String) (rest : List String),
      m ∈ credentialedMethods →
        dispatch verify m ("" :: rest) = Except.error Err.accessDenied) := by
  constructor
  · intro verify; rfl
  · intro verify m rest hm
    fin_cases hm <;> rfl

/-- C10 witness at a concrete verifier and method. -/
theorem c10_witness :
    check_super (fun _ => true) "" = (Except.error Err.accessDenied, 0) ∧
    dispatch (fun _ => true) "drop" ("" :: ["db1"]) = Except.error Err.accessDenied :=
  ⟨c10_empty_credential_denied.1 (fun _ => true),
   c10_empty_credential_denied.2 (fun _ => true) "drop" ["db1"] (by decide)⟩

/-- C8: exp_list, although dispatched on the no-credential allow-list, raises
AccessDenied whenever the `list_db` configuration flag is disabled, so a
caller of this public method can still be denied by configuration alone. -/
theorem c8_exp_list_denied_when_list_db_off
    (config : ToolsConfig) (w : World) (queryFails : Bool)
    (h : config.list_db = false) :
    exp_list config w queryFails = Except.error Err.accessDenied ∧
    "list" ∈ publicMethods ∧
    (∀ (verify : String → Bool) (params : List String),
      dispatch verify "list" params =
        Except.ok (DispatchResult.delegate "exp_list" params)) := by
  refine ⟨?_, by decide, ?_⟩
  · simp [exp_list, h]
  · intro verify params; rfl

/-- C8 witness at a concrete configuration with list_db disabled. -/
theorem c8_witness :
    exp_list { list_db := false, dbfilter := "", db_name := "",
               db_template := "template0", unaccent := false }
             { catalog := ["db1"], filestores := [], connectable := [], trace := [] }
             false = Except.error Err.accessDenied := by
  exact (c8_exp_list_denied_when_list_db_off _ _ false rfl).1

/-- Every member of the list handed to `extractall` is dump.sql or starts
with filestore/. -/
theorem restore_extract_members_safe {nl : List String} {x : String}
    (hnl : x ∈ restore_extract_members nl) :
    x = "dump.sql" ∨ strStartsWith x "filestore/" = true := by
  rcases List.mem_cons.mp hnl with h1 | h1
  · exact Or.inl h1
  · exact Or.inr (List.mem_filter.mp h1).2

/-- Extraction events added by any run of restore_db name only members of the
safe member set computed from the archive name list. -/
theorem restore_db_extract_events
    (w : World) (db : String) (dump : DumpFile) (copy restoreFails : Bool) (x : String)
    (hx : Event.extract x ∈ (restore_db w db dump copy restoreFails).1.trace) :
    Event.extract x ∈ w.trace ∨ x ∈ restore_extract_members dump.namelist := by
  by_cases h1 : exp_db_exist w db
  · simp [restore_db, h1] at hx
    exact Or.inl hx
  by_cases h2 : db ∈ w.catalog
  · simp [restore_db, _create_empty_database, h1, h2] at hx
    exact Or.inl hx
  by_cases hz : dump.isZip <;> by_cases h3 : restoreFails <;> by_cases hc : copy <;>
    by_cases hf : dump.namelist.any (fun m => strStartsWith m "filestore/") = true <;>
    simp [restore_db, _create_empty_database, h1, h2, h3, hz, hc, hf, World.record] at hx <;>
    first
      | exact Or.inl hx
      | exact hx.elim Or.inl Or.inr

/-- C3: restore extracts only the member dump.sql and members whose names
start with filestore/ — both in the member list handed to `extractall` and in
the extraction events any run of restore_db adds to the trace; no other
archive member is ever extracted. -/
theorem c3_restore_extracts_only_safe_members
    (namelist : List String) (m : String) (w : World) (db : String)
    (dump : DumpFile) (copy restoreFails : Bool)
    (h : m ∈ restore_extract_members namelist) :
    (m = "dump.sql" ∨ strStartsWith m "filestore/" = true) ∧
    (∀ x : String, Event.extract x ∈ (restore_db w db dump copy restoreFails).1.trace →
      Event.extract x ∈ w.trace ∨ x = "dump.sql" ∨ strStartsWith x "filestore/" = true) := by
  constructor
  · exact restore_extract_members_safe h
  · intro x hx
    rcases restore_db_extract_events w db dump copy restoreFails x hx with h1 | h1
    · exact Or.inl h1
    · exact Or.inr (restore_extract_members_safe h1)

/-- Sample world shared by the witnesses. -/
def wSample : World :=
  { catalog := ["postgres", "mydb"], filestores := ["mydb"],
    connectable := ["mydb"], trace := [] }

/-- Sample configuration shared by the witnesses. -/
def cfgSample : ToolsConfig :=
  { list_db := true, dbfilter := "", db_name := "",
    db_template := "template0", unaccent := false }

/-- Sample current-format archive shared by the witnesses; note the unsafe
member name that must never be extracted. -/
def dumpSample : DumpFile :=
  { isZip := true, namelist := ["dump.sql", "manifest.json", "filestore/x", "evil"] }

/-- C3 witness: a concrete archive member satisfying the hypotheses. -/
theorem c3_witness :
    "filestore/x" ∈ restore_extract_members dumpSample.namelist ∧
    ("filestore/x" = "dump.sql" ∨ strStartsWith "filestore/x" "filestore/" = true) :=
  ⟨by decide,
   (c3_restore_extracts_only_safe_members dumpSample.namelist "filestore/x"
      wSample "newdb" dumpSample true true (by decide)).1⟩

/-- C4: exp_create_database raises DatabaseExists when the name is already in
pg_database, failing before any side effect — the world, and in particular
the existing database and its filestore, comes back unaltered; on a free name
it creates the database (the name joins the catalog), leaves every filestore
untouched, and returns True. -/
theorem c4_create_database_semantics
    (w : World) (name : String) (lang cc : Option String) (failAt : InitStep → Bool) :
    (name ∈ w.catalog →
      exp_create_database w name lang cc failAt =
        (w, Except.error (Err.databaseExists name))) ∧
    (¬ name ∈ w.catalog →
      (exp_create_database w name lang cc failAt).2 = Except.ok true ∧
      name ∈ (exp_create_database w name lang cc failAt).1.catalog ∧
      (exp_create_database w name lang cc failAt).1.filestores = w.filestores) := by
  constructor
  · intro h
    simp [exp_create_database, _create_empty_database, h]
  · intro h
    have hpres := runInitSteps_preserves name failAt (initStepsFor lang cc)
      { w with catalog := w.catalog ++ [name],
               trace := w.trace ++ [Event.createDatabase name] }
    refine ⟨?_, ?_, ?_⟩ <;>
      simp [exp_create_database, _create_empty_database, h, _initialize_db,
            hpres.1, hpres.2]

/-- C4 witness: both branches at concrete inputs. -/
theorem c4_witness :
    exp_create_database wSample "mydb" (some "en_US") none (fun _ => false) =
      (wSample, Except.error (Err.databaseExists "mydb")) ∧
    (exp_create_database wSample "newdb" (some "en_US") none (fun _ => false)).2 =
      Except.ok true :=
  ⟨(c4_create_database_semantics wSample "mydb" (some "en_US") none
      (fun _ => false)).1 (by decide),
   ((c4_create_database_semantics wSample "newdb" (some "en_US") none
      (fun _ => false)).2 (by decide)).1⟩

/-- C9: _initialize_db wraps its entire body — baseline schema load, registry
bootstrap, translation and country setup, admin-account finalization — in a
try/except whose handler only logs, so exp_create_database returns True
whenever the empty template-copy creation succeeds, for every initialization
failure oracle, even one failing at the very first step. -/
theorem c9_create_returns_true_despite_init_failure
    (w : World) (name : String) (lang cc : Option String) (failAt : InitStep → Bool)
    (h : ¬ name ∈ w.catalog) :
    (exp_create_database w name lang cc failAt).2 = Except.ok true := by
  simp [exp_create_database, _create_empty_database, h]

/-- Reduction of dispatch for a recognized method outside the allow-list. -/
theorem dispatch_credentialed (verify : String → Bool) (m : String)
    (hpub : ¬ m ∈ publicMethods) (hexp : "exp_" ++ m ∈ expGlobals)
    (p : String) (rest : List String) :
    dispatch verify m (p :: rest) =
      match (check_super verify p).1 with
      | Except.error e => Except.error e
      | Except.ok _ => Except.ok (DispatchResult.delegate ("exp_" ++ m) rest) := by
  simp [dispatch, hpub, hexp]

/-- C1 counterexample: the operations the claim calls `create` and `duplicate`
are dispatched only under the method names `create_database` and
`duplicate_database`; for the literal method names `create` and `duplicate`,
dispatch raises KeyError (method not found) without consuming or verifying
any credential, even when the verifier rejects everything — not the
AccessDenied the claim requires on a failed verification. -/
theorem c1_counterexample :
    dispatch (fun _ => false) "create" ["badpw"] =
      Except.error (Err.methodNotFound "create") ∧
    dispatch (fun _ => false) "create" ["badpw"] ≠
      Except.error Err.accessDenied ∧
    dispatch (fun _ => false) "duplicate" ["badpw"] =
      Except.error (Err.methodNotFound "duplicate") := by
  exact ⟨by decide, by decide, by decide⟩

/-- C1 (amended): for every credentialed dispatch method — `create_database`,
`duplicate_database`, `drop`, `dump`, `restore`, `rename`,
`change_admin_password`, `migrate_databases` (and `list_countries`, also
outside the allow-list) — dispatch consumes the first element of params as
the credential and verifies it with check_super; on failure it returns
AccessDenied and never delegates to the underlying exp function, and on
success it delegates with the credential stripped; the four allow-listed
methods are dispatched with the full parameter list and no credential
check, whatever the verifier says. -/
theorem c1_dispatch_credential_gate
    (verify : String → Bool) (m p : String) (rest params : List String) :
    (m ∈ credentialedMethods →
      ((check_super verify p).1 = Except.error Err.accessDenied →
        dispatch verify m (p :: rest) = Except.error Err.accessDenied) ∧
      ((check_super verify p).1 = Except.ok () →
        dispatch verify m (p :: rest) =
          Except.ok (DispatchResult.delegate ("exp_" ++ m) rest))) ∧
    (m ∈ publicMethods →
      dispatch verify m params =
        Except.ok (DispatchResult.delegate ("exp_" ++ m) params)) := by
  constructor
  · intro hm
    have hpub : ¬ m ∈ publicMethods := by fin_cases hm <;> decide
    have hexp : "exp_" ++ m ∈ expGlobals := by fin_cases hm <;> decide
    constructor
    · intro hden
      rw [dispatch_credentialed verify m hpub hexp p rest, hden]
    · intro hok
      rw [dispatch_credentialed verify m hpub hexp p rest, hok]
  · intro hm
    simp [dispatch, hm]

/-- C1 witness: a denied and a granted credentialed dispatch, plus a public
dispatch under a rejecting verifier. -/
theorem c1_witness :
    "drop" ∈ credentialedMethods ∧
    (check_super (fun _ => false) "badpw").1 = Except.error Err.accessDenied ∧
    dispatch (fun _ => false) "drop" ["badpw", "mydb"] =
      Except.error Err.accessDenied ∧
    dispatch (fun _ => true) "drop" ["goodpw", "mydb"] =
      Except.ok (DispatchResult.delegate "exp_drop" ["mydb"]) ∧
    dispatch (fun _ => false) "list" ["doc"] =
      Except.ok (DispatchResult.delegate "exp_list" ["doc"]) := by
  refine ⟨by decide, by decide, ?_, ?_, ?_⟩
  · exact ((c1_dispatch_credential_gate (fun _ => false) "drop" "badpw" ["mydb"]
      []).1 (by decide)).1 (by decide)
  · exact ((c1_dispatch_credential_gate (fun _ => true) "drop" "goodpw" ["mydb"]
      []).1 (by decide)).2 (by decide)
  · exact (c1_dispatch_credential_gate (fun _ => false) "list" "x" [] ["doc"]).2
      (by decide)

/-- Only dump.sql has sort key zero. -/
theorem sortKey_eq_zero {b : String} (h : sortKey b = 0) : b = "dump.sql" := by
  by_cases hb : b = "dump.sql"
  · exact hb
  · simp [sortKey, fnct_sort, hb] at h

/-- Inserting dump.sql by key always lands at the front. -/
theorem insertByKey_dump_head (t : List String) :
    (insertByKey "dump.sql" t).head? = some "dump.sql" := by
  cases t with
  | nil => rfl
  | cons b bs =>
    by_cases hb : sortKey "dump.sql" < sortKey b
    · simp [insertByKey, hb]
    · have h0 : sortKey "dump.sql" = 0 := rfl
      rw [h0] at hb
      have hz : sortKey b = 0 := by omega
      have hbd := sortKey_eq_zero hz
      subst hbd
      simp [insertByKey, sortKey, fnct_sort]

/-- The key sort puts dump.sql at the head whenever it is a member. -/
theorem sortByKey_head_dump (l : List String) (h : "dump.sql" ∈ l) :
    (sortByKey l).head? = some "dump.sql" := by
  induction l with
  | nil => cases h
  | cons a as ih =>
    by_cases ha : a = "dump.sql"
    · subst ha
      exact insertByKey_dump_head (sortByKey as)
    · have hmem : "dump.sql" ∈ as := by
        rcases List.mem_cons.mp h with h1 | h1
        · exact absurd h1.symm ha
        · exact h1
      have hh := ih hmem
      show (insertByKey a (sortByKey as)).head? = some "dump.sql"
      cases hsk : sortByKey as with
      | nil => rw [hsk] at hh; cases hh
      | cons b bs =>
        rw [hsk] at hh
        have hb : b = "dump.sql" := by simpa using hh
        subst hb
        simp [insertByKey, sortKey, fnct_sort, ha]

/-- C2 counterexample: with the sort key of db.py line 200, a concrete
staging-directory listing comes out with dump.sql first and manifest.json
last — the key promotes dump.sql to the front (False orders before True); it
does not demote it to last, and the produced physical listing has dump.sql
first, not "not first" as the claim states. -/
theorem c2_counterexample :
    dump_db_zip_listing ["manifest.json", "dump.sql"] [] =
      ["dump.sql", "manifest.json"] ∧
    (dump_db_zip_listing ["manifest.json", "dump.sql"] []).head? =
      some "dump.sql" ∧
    (dump_db_zip_listing ["manifest.json", "dump.sql"] []).getLast? ≠
      some "dump.sql" := by
  exact ⟨by decide, by decide, by decide⟩

/-- C2 (amended): the packer sort key `file_name != 'dump.sql'` orders
dump.sql first (Python sorts False before True), so for every archive
produced by the zip branch of dump_db — whose staging directory always
contains dump.sql — dump.sql is first in the physical member listing. -/
theorem c2_dump_sql_first
    (topOrder filestoreFiles : List String) (h : "dump.sql" ∈ topOrder) :
    (dump_db_zip_listing topOrder filestoreFiles).head? = some "dump.sql" := by
  have hh := sortByKey_head_dump topOrder h
  unfold dump_db_zip_listing zip_dir_listing
  cases hsk : sortByKey topOrder with
  | nil => rw [hsk] at hh; cases hh
  | cons b bs =>
    rw [hsk] at hh
    simpa using hh

/-- C2 witness: a staging directory enumerated with manifest.json before
dump.sql and a nonempty filestore still lists dump.sql first. -/
theorem c2_witness :
    "dump.sql" ∈ (["manifest.json", "dump.sql"] : List String) ∧
    (dump_db_zip_listing ["manifest.json", "dump.sql"] ["x"]).head? =
      some "dump.sql" :=
  ⟨by decide,
   c2_dump_sql_first ["manifest.json", "dump.sql"] ["x"] (by decide)⟩

/-- C5: exp_drop returns False and performs no action at all when the name is
not in the visible database list; when it is, a failed DROP DATABASE raises
with the database name and the underlying engine error message attached,
leaving the catalog and the filestore in place (only the registry-cache,
connection-cache and session-termination steps have run); a successful DROP
removes the name from the catalog and only then removes the filestore tree
when it exists, returning True. -/
theorem c5_drop_semantics
    (config : ToolsConfig) (w : World) (name : String)
    (queryFails : Bool) (dbs : List String)
    (hdbs : list_dbs config w true queryFails = Except.ok dbs) :
    (¬ name ∈ dbs → ∀ dropError,
      exp_drop config w name dropError queryFails = (w, Except.ok false)) ∧
    (name ∈ dbs → ∀ e,
      exp_drop config w name (some e) queryFails =
        ({ w with trace := w.trace ++ [Event.registryDelete name, Event.closeDb name,
                                       Event.terminateSessions name] },
         Except.error (Err.dropFailed name e))) ∧
    (name ∈ dbs →
      exp_drop config w name none queryFails =
        (if name ∈ w.filestores then
           { catalog := w.catalog.erase name, filestores := w.filestores.erase name,
             connectable := w.connectable,
             trace := w.trace ++ [Event.registryDelete name, Event.closeDb name,
                                  Event.terminateSessions name, Event.dropDatabase name,
                                  Event.removeFilestore name] }
         else
           { catalog := w.catalog.erase name, filestores := w.filestores,
             connectable := w.connectable,
             trace := w.trace ++ [Event.registryDelete name, Event.closeDb name,
                                  Event.terminateSessions name, Event.dropDatabase name] },
         Except.ok true)) := by
  refine ⟨?_, ?_, ?_⟩
  · intro h dropError
    simp [exp_drop, hdbs, h]
  · intro h e
    simp [exp_drop, hdbs, h, World.record]
  · intro h
    by_cases hfs : name ∈ w.filestores <;>
      simp [exp_drop, hdbs, h, hfs, World.record]

/-- C5 witness: the no-op branch and the failed-DROP branch at concrete
inputs. -/
theorem c5_witness :
    list_dbs cfgSample wSample true false = Except.ok ["mydb"] ∧
    exp_drop cfgSample wSample "nodb" (some "busy") false =
      (wSample, Except.ok false) ∧
    (exp_drop cfgSample wSample "mydb" (some "busy") false).2 =
      Except.error (Err.dropFailed "mydb" "busy") ∧
    (exp_drop cfgSample wSample "mydb" (some "busy") false).1.filestores =
      wSample.filestores := by
  have hdbs : list_dbs cfgSample wSample true false = Except.ok ["mydb"] := by decide
  have hfail := (c5_drop_semantics cfgSample wSample "mydb" false ["mydb"]
    hdbs).2.1 (by decide) "busy"
  refine ⟨hdbs, ?_, ?_, ?_⟩
  · exact (c5_drop_semantics cfgSample wSample "nodb" false ["mydb"] hdbs).1
      (by decide) (some "busy")
  · rw [hfail]
  · rw [hfail]

/-- C6: exp_rename is atomic with respect to the filestore: when ALTER
DATABASE RENAME fails, it raises with both names and the engine error text
attached and the filestores are exactly as before — in particular the new
name's filestore is never left present when it was not already; on success
the filestore directory is moved to the new name exactly when the old
filestore exists and the destination does not already. -/
theorem c6_rename_filestore_atomicity
    (w : World) (old_name new_name : String) :
    (∀ e,
      (exp_rename w old_name new_name (some e)).2 =
        Except.error (Err.renameFailed old_name new_name e) ∧
      (exp_rename w old_name new_name (some e)).1.filestores = w.filestores ∧
      (exp_rename w old_name new_name (some e)).1.catalog = w.catalog) ∧
    ((exp_rename w old_name new_name none).2 = Except.ok true ∧
      (exp_rename w old_name new_name none).1.filestores =
        (if old_name ∈ w.filestores ∧ ¬ new_name ∈ w.filestores then
           (w.filestores.erase old_name) ++ [new_name]
         else w.filestores)) := by
  refine ⟨?_, ?_, ?_⟩
  · intro e
    refine ⟨?_, ?_, ?_⟩ <;> simp [exp_rename, World.record]
  · by_cases hc : old_name ∈ w.filestores ∧ ¬ new_name ∈ w.filestores <;>
      simp [exp_rename, World.record, hc]
  · by_cases hc : old_name ∈ w.filestores ∧ ¬ new_name ∈ w.filestores <;>
      simp [exp_rename, World.record, hc]

/-- C6 witness: a failed and a successful rename at concrete inputs. -/
theorem c6_witness :
    (exp_rename wSample "mydb" "newdb" (some "busy")).2 =
      Except.error (Err.renameFailed "mydb" "newdb" "busy") ∧
    (exp_rename wSample "mydb" "newdb" (some "busy")).1.filestores =
      wSample.filestores ∧
    (exp_rename wSample "mydb" "newdb" none).2 = Except.ok true :=
  ⟨((c6_rename_filestore_atomicity wSample "mydb" "newdb").1 "busy").1,
   ((c6_rename_filestore_atomicity wSample "mydb" "newdb").1 "busy").2.1,
   (c6_rename_filestore_atomicity wSample "mydb" "newdb").2.1⟩

/-- C7: when the external restore tool (psql for zip archives, pg_restore for
legacy dumps) reports failure, restore_db raises and aborts, and the empty
target database created in the prior step stays in the catalog — restore
never issues a DROP for it. -/
theorem c7_restore_tool_failure_leaves_created_db
    (w : World) (db : String) (dump : DumpFile) (copy : Bool)
    (h1 : ¬ db ∈ w.connectable) (h2 : ¬ db ∈ w.catalog) :
    (restore_db w db dump copy true).2 = Except.error Err.restoreFailed ∧
    db ∈ (restore_db w db dump copy true).1.catalog ∧
    Event.createDatabase db ∈ (restore_db w db dump copy true).1.trace ∧
    (¬ Event.dropDatabase db ∈ w.trace →
      ¬ Event.dropDatabase db ∈ (restore_db w db dump copy true).1.trace) := by
  refine ⟨?_, ?_, ?_, ?_⟩
  · by_cases hz : dump.isZip <;>
      simp [restore_db, exp_db_exist, _create_empty_database, h1, h2, hz,
            World.record]
  · by_cases hz : dump.isZip <;>
      simp [restore_db, exp_db_exist, _create_empty_database, h1, h2, hz,
            World.record]
  · by_cases hz : dump.isZip <;>
      simp [restore_db, exp_db_exist, _create_empty_database, h1, h2, hz,
            World.record]
  · intro hnd
    by_cases hz : dump.isZip <;>
      simp [restore_db, exp_db_exist, _create_empty_database, h1, h2, hz,
            World.record, hnd]

/-- C7 witness: a concrete failing restore leaves the created database. -/
theorem c7_witness :
    ¬ "newdb" ∈ wSample.connectable ∧
    (restore_db wSample "newdb" dumpSample true true).2 =
      Except.error Err.restoreFailed ∧
    "newdb" ∈ (restore_db wSample "newdb" dumpSample true true).1.catalog :=
  ⟨by decide,
   (c7_restore_tool_failure_leaves_created_db wSample "newdb" dumpSample true
      (by decide) (by decide)).1,
   (c7_restore_tool_failure_leaves_created_db wSample "newdb" dumpSample true
      (by decide) (by decide)).2.1⟩

/-- C9 witness: every initialization step failing, create still reports True. -/
theorem c9_witness :
    ¬ "newdb" ∈ wSample.catalog ∧
    (exp_create_database wSample "newdb" (some "en_US") (some "US")
      (fun _ => true)).2 = Except.ok true :=
  ⟨by decide,
   c9_create_returns_true_despite_init_failure wSample "newdb" (some "en_US")
     (some "US") (fun _ => true) (by decide)⟩

end OdooDb
